import Mathlib

/-!
Shallow embedding of the hortus plant-monitor control core
(`camera_control.py`, `heater_control.py`, `plant_monitor.py`).

Camera metadata values (ExposureTime in µs, AnalogGain, Lux) are modelled
as rationals; a metadata dictionary is a record of optional fields, one
per key the code reads (`"key" in meta` becomes `Option.isSome`).
Stateful loops become explicit state-passing functions; externally visible
side effects (device commands, sleeps, file writes) become event lists.
-/

namespace Hortus

/-! ### camera_control.py -/

/-- A camera metadata dictionary restricted to the keys the code reads:
`ExposureTime`, `AnalogGain` and `Lux`.  A `none` field models an absent key. -/
structure Metadata where
  exposureTime : Option ℚ
  analogGain : Option ℚ
  lux : Option ℚ
  deriving DecidableEq, Repr

/-- One iteration of the `for key in keys_to_check` loop body of `is_stable`
(`camera_control.py` lines 22–30): if the key is present in both dicts and
the previous value is nonzero, the key passes iff the relative change
`abs(curr - prev) / prev` does not exceed the threshold; otherwise the key
is skipped (passes). -/
def checkKey (p c : Option ℚ) (threshold : ℚ) : Bool :=
  match p, c with
  | some pv, some cv =>
    if pv = 0 then true
    else if |cv - pv| / pv > threshold then false
    else true
  | _, _ => true

/-- `is_stable(prev_meta, curr_meta, threshold)` (`camera_control.py` lines 14–31):
returns `False` as soon as a tracked key (`ExposureTime`, then `AnalogGain`)
present in both dicts with nonzero previous value changes relatively by more
than the threshold, `True` otherwise.  The early `return False` of the source
loop is the short-circuit of `&&`. -/
def is_stable (prev curr : Metadata) (threshold : ℚ) : Bool :=
  checkKey prev.exposureTime curr.exposureTime threshold &&
  checkKey prev.analogGain curr.analogGain threshold

/-- default `threshold=0.05` of `is_stable` -/
def DEFAULT_STABLE_THRESHOLD : ℚ := 5 / 100

/-- `threshold=0.02` used by the stabilization loop call site (line 90) -/
def STAB_THRESHOLD : ℚ := 2 / 100

/-- `required_stable_iterations = 3` (line 80) -/
def required_stable_iterations : Nat := 3

/-- `max_iterations = 10` (line 81) -/
def max_iterations : Nat := 10

/-- The mutable locals of the stabilization loop in `take_picture`
(`camera_control.py` lines 78–82). -/
structure StabState where
  prevMetadata : Option Metadata
  stableCount : Nat
  iteration : Nat
  deriving DecidableEq, Repr

/-- One body execution ("tick") of the stabilization `while` loop
(`camera_control.py` lines 85–100, up to and including `iteration += 1`):
given the freshly captured metadata `curr`, increment `stable_count` when
`is_stable` holds against the previous tick's metadata; otherwise reset it
to 0 only when both dicts carry `ExposureTime` and the absolute delta
exceeds 5000; then store `curr` as the previous metadata and bump the
iteration counter. -/
def stabTick (s : StabState) (curr : Metadata) : StabState :=
  let sc :=
    match s.prevMetadata with
    | none => s.stableCount
    | some prev =>
      if is_stable prev curr STAB_THRESHOLD then s.stableCount + 1
      else
        match prev.exposureTime, curr.exposureTime with
        | some pe, some ce => if |pe - ce| > 5000 then 0 else s.stableCount
        | _, _ => s.stableCount
  { prevMetadata := some curr, stableCount := sc, iteration := s.iteration + 1 }

/-- The stabilization `while iteration < max_iterations` loop
(`camera_control.py` lines 84–106), fuelled by the remaining iteration
budget; `metas n` is the metadata captured on the tick whose pre-state has
`iteration = n`.  After each tick the loop `break`s once
`stable_count >= required_stable_iterations`. -/
def stabRun (metas : Nat → Metadata) : Nat → StabState → StabState
  | 0, s => s
  | fuel + 1, s =>
    if s.iteration < max_iterations then
      let s' := stabTick s (metas s.iteration)
      if required_stable_iterations ≤ s'.stableCount then s'
      else stabRun metas fuel s'
    else s

/-- Entry into the stabilization loop with
`prev_metadata = None; stable_count = 0; iteration = 0` (lines 78–82). -/
def stabilize (metas : Nat → Metadata) : StabState :=
  stabRun metas max_iterations { prevMetadata := none, stableCount := 0, iteration := 0 }

/-- `light_level = metadata.get("Lux", 200)` (`camera_control.py` line 64). -/
def light_level (m : Metadata) : ℚ :=
  m.lux.getD 200

/-- The guard `if light_level < 100` of the low-light override (line 66). -/
def lowLight (m : Metadata) : Bool :=
  light_level m < 100

/-- Externally visible camera actions of the non-exception path of
`take_picture`. -/
inductive CamEvent where
  /-- the fully-automatic `set_controls` call (lines 50–56) -/
  | setControlsAuto
  /-- the low-light override `set_controls` call (lines 68–73) -/
  | setControlsLowLight
  /-- one dummy `capture_array("main")` of a stabilization tick (line 85) -/
  | dummyCapture
  /-- the final `capture_file` (line 114) -/
  | captureFile
  /-- replacing the `latest.jpg` symlink (lines 117–123) -/
  | symlinkLatest
  /-- `picam2.stop()` (line 129) -/
  | stopCamera
  deriving DecidableEq, Repr

/-- The camera-action trace of the non-exception path of `take_picture`
(`camera_control.py` lines 33–130): apply automatic settings, read the
initial metadata `initMeta` and apply the low-light override iff
`light_level < 100`, run the stabilization loop (one dummy capture per
executed tick), then capture the final image, refresh the `latest` symlink
and stop the camera.  An exception instead aborts the sequence
(lines 131–138); that path produces no capture and is not modelled here. -/
def take_picture_events (initMeta : Metadata) (metas : Nat → Metadata) : List CamEvent :=
  [CamEvent.setControlsAuto] ++
  (if lowLight initMeta then [CamEvent.setControlsLowLight] else []) ++
  List.replicate (stabilize metas).iteration CamEvent.dummyCapture ++
  [CamEvent.captureFile, CamEvent.symlinkLatest, CamEvent.stopCamera]

/-! ### heater_control.py -/

/-- `TEMP_THRESHOLD = 10.0` (°C) -/
def TEMP_THRESHOLD : ℚ := 10

/-- Externally visible actions of the heater control loop. -/
inductive HeaterEvent where
  /-- `plug.turn_on()` — a physical ON command (line 23) -/
  | cmdOn
  /-- `plug.turn_off()` — a physical OFF command (line 26) -/
  | cmdOff
  /-- `time.sleep(HEATER_ON_TIME)` (line 40) -/
  | sleepOn
  /-- `time.sleep(HEATER_OFF_TIME)` (line 45) -/
  | sleepOff
  /-- `time.sleep(10)` of the above-threshold branch (line 49) -/
  | sleepIdle
  /-- `time.sleep(5)` when no temperature reading exists yet (line 52) -/
  | sleepNoTemp
  deriving DecidableEq, Repr

/-- `control_heater(turn_on)` (`heater_control.py` lines 16–29) on an
actuator whose current state is `plugOn` (the result of `plug.update()` /
`plug.is_on`): issue a physical command only when the requested state
differs from the current one.  Returns the resulting actuator state and
the physical commands issued.  (A network error inside the function is
caught and issues no command; the device itself is an external
collaborator and is modelled as responding normally.) -/
def control_heater (turn_on plugOn : Bool) : Bool × List HeaterEvent :=
  if turn_on && !plugOn then (true, [HeaterEvent.cmdOn])
  else if !turn_on && plugOn then (false, [HeaterEvent.cmdOff])
  else (plugOn, [])

/-- The loop state of `heater_control_loop`: the physical actuator state,
and the index of the next temperature *check point* (each read of the
shared `current_temperature` at a branch decision is one check point). -/
structure HeaterState where
  plugOn : Bool
  checkIdx : Nat
  deriving DecidableEq, Repr

/-- One iteration of the `while heater_thread_running` body of
`heater_control_loop` (`heater_control.py` lines 35–52), with
`temps n` the value of the shared `current_temperature` at the n-th check
point (`none` = still `None`) and the running flag held true throughout.
Below threshold: turn ON, hold for the on-duration, re-check, and if the
re-check is still below threshold turn OFF and hold for the off-duration.
At or above threshold: ensure OFF and sleep 10 s.  No reading: sleep 5 s.
Re-checking a reading that is `None` would raise a `TypeError` in the
source (`None < TEMP_THRESHOLD`), killing the thread; that outcome is the
`none` result. -/
def heaterIter (temps : Nat → Option ℚ) (s : HeaterState) :
    Option HeaterState × List HeaterEvent :=
  match temps s.checkIdx with
  | none => (some { plugOn := s.plugOn, checkIdx := s.checkIdx + 1 }, [HeaterEvent.sleepNoTemp])
  | some t =>
    if t < TEMP_THRESHOLD then
      let r1 := control_heater true s.plugOn
      match temps (s.checkIdx + 1) with
      | none => (none, r1.2 ++ [HeaterEvent.sleepOn])
      | some t2 =>
        if t2 < TEMP_THRESHOLD then
          let r2 := control_heater false r1.1
          (some { plugOn := r2.1, checkIdx := s.checkIdx + 2 },
            r1.2 ++ [HeaterEvent.sleepOn] ++ r2.2 ++ [HeaterEvent.sleepOff])
        else
          (some { plugOn := r1.1, checkIdx := s.checkIdx + 2 },
            r1.2 ++ [HeaterEvent.sleepOn])
    else
      let r1 := control_heater false s.plugOn
      (some { plugOn := r1.1, checkIdx := s.checkIdx + 1 },
        r1.2 ++ [HeaterEvent.sleepIdle])

/-- `n` successive iterations of `heater_control_loop` (`none` final state =
the thread died of an uncaught exception part-way; its events up to that
point are kept). -/
def heaterRun (temps : Nat → Option ℚ) : Nat → HeaterState → Option HeaterState × List HeaterEvent
  | 0, s => (some s, [])
  | n + 1, s =>
    match heaterIter temps s with
    | (some s', es) =>
      let r := heaterRun temps n s'
      (r.1, es ++ r.2)
    | (none, es) => (none, es)

/-- The temperature check-point sequence 9.0, 9.0, 11.0 (then staying at
11.0) of the thermostat scenario. -/
def temps940 : Nat → Option ℚ := fun i => if i < 2 then some 9 else some 11

/-! ### plant_monitor.py — resource watchdog -/

/-- `CPU_TEMP_THRESHOLD = 80` (°C) -/
def CPU_TEMP_THRESHOLD : ℚ := 80

/-- Externally visible actions of `check_system_resources` and `shutdown`. -/
inductive WEvent where
  /-- `heater_control.stop_heater_control()` -/
  | stopHeater
  /-- `camera_control.stop_camera_control()` -/
  | stopCamera
  /-- `time.sleep(30)` cooldown -/
  | cooldown
  /-- `GPIO.cleanup()` inside `shutdown` -/
  | gpioCleanup
  /-- `os.execv(sys.executable, ...)` — the process re-exec (restart) -/
  | reexec
  /-- `heater_control.start_heater_control()` -/
  | startHeater
  /-- `camera_control.start_camera_control(...)` -/
  | startCamera
  deriving DecidableEq, Repr

/-- `shutdown()` (`plant_monitor.py` lines 50–58): stop both subsystems,
then release the GPIO pins. -/
def shutdown : List WEvent :=
  [WEvent.stopHeater, WEvent.stopCamera, WEvent.gpioCleanup]

/-- `check_system_resources()` (`plant_monitor.py` lines 61–79).  `t1` is the
first `get_cpu_temp()` result and `t2` the re-measurement after the cooldown
(`none` models the `"Unavailable"` string).  Returns the action trace and a
flag marking the uncaught `TypeError` raised when the re-measurement is
`"Unavailable"` (a string compared against 80). -/
def check_system_resources (t1 t2 : Option ℚ) : List WEvent × Bool :=
  match t1 with
  | none => ([], false)
  | some c1 =>
    if c1 > CPU_TEMP_THRESHOLD then
      let pre := [WEvent.stopHeater, WEvent.stopCamera, WEvent.cooldown]
      match t2 with
      | none => (pre, true)
      | some c2 =>
        if c2 > CPU_TEMP_THRESHOLD then
          (pre ++ shutdown ++ [WEvent.reexec], false)
        else
          (pre ++ [WEvent.startHeater, WEvent.startCamera], false)
    else ([], false)

/-! ### plant_monitor.py — sensor multiplexer -/

/-- The successive rail states produced by one `read_sensor(idx)` call
(`plant_monitor.py` lines 82–100), each list entry being the rails right
after one atomic `GPIO.output` write: the `for i, pin in enumerate(...)`
loop writes pins 0,1,2,3 in order (HIGH iff `i == idx`), then — only when
the `sensor.value` read succeeds (`readOk`) — the selected pin is driven
LOW again.  A failing read raises before that final write (there is no
`try/finally`), leaving the selected rail HIGH. -/
def read_sensor_trace (rails : List Bool) (idx : Nat) (readOk : Bool) : List (List Bool) :=
  let r0 := rails.set 0 (decide (0 = idx))
  let r1 := r0.set 1 (decide (1 = idx))
  let r2 := r1.set 2 (decide (2 = idx))
  let r3 := r2.set 3 (decide (3 = idx))
  if readOk then [r0, r1, r2, r3, r3.set idx false]
  else [r0, r1, r2, r3]

/-- Rail-state trace of a sequence of `read_sensor` calls: each call is a
pair (sensor index, whether its `sensor.value` read succeeds); the rails a
call leaves behind are the rails the next call starts from (the caller in
`makedata` catches the exception and continues). -/
def mux_run (rails : List Bool) : List (Nat × Bool) → List (List Bool)
  | [] => []
  | (idx, ok) :: rest =>
    let tr := read_sensor_trace rails idx ok
    tr ++ mux_run (tr.getLastD rails) rest

/-- At most one rail HIGH — the mutual-exclusion property of the shared
sensor bus. -/
def atMostOneHigh (rails : List Bool) : Bool :=
  rails.count true ≤ 1

/-! ### plant_monitor.py — makedata -/

/-- The readings of one fully successful pass of the `while` body of
`makedata` beyond the four soil sensors: BME280 environment values and the
system metrics (all read before any of them is appended, so they are
appended all-or-nothing). -/
structure EnvSample where
  temperature : ℚ
  humidity : ℚ
  pressure : ℚ
  cpuTemp : ℚ
  cpuUsage : ℚ
  memUsage : ℚ
  deriving DecidableEq, Repr

/-- What one pass ("tick") of the sampling `while` loop of `makedata`
(`plant_monitor.py` lines 113–143) appended before it either completed or
raised (the exception is caught at line 138 and the loop continues):
`soil` is the prefix of the four `read_sensor` values that were appended
(a raise at sensor `k` leaves exactly `k` values appended), and `env` is
`some` exactly when the tick got past all reads — only then are the
environment/system lists appended to. -/
structure Tick where
  soil : List ℚ
  env : Option EnvSample
  deriving DecidableEq, Repr

/-- `np.median` on the collected list, as a rational when the list is
nonempty: middle element of the sorted list for odd length, mean of the
two middle elements for even length.  `none` models the NaN that
`np.median` produces on an empty list. -/
def median (l : List ℚ) : Option ℚ :=
  let s := l.mergeSort (· ≤ ·)
  match s.length with
  | 0 => none
  | n + 1 =>
    if (n + 1) % 2 = 1 then some (s.getD ((n + 1) / 2) 0)
    else some ((s.getD ((n + 1) / 2 - 1) 0 + s.getD ((n + 1) / 2) 0) / 2)

/-- The accumulated `soil_moistures[i]` list after the sampling loop:
tick `t` contributed `t.soil[i]` iff its pass reached sensor `i`. -/
def soilColumn (ticks : List Tick) (i : Nat) : List ℚ :=
  ticks.filterMap (fun t => t.soil.get? i)

/-- An accumulated environment/system column. -/
def envColumn (ticks : List Tick) (f : EnvSample → ℚ) : List ℚ :=
  ticks.filterMap (fun t => t.env.map f)

/-- `makedata` after the sampling loop (`plant_monitor.py` lines 145–166):
if `soil_moistures[0]` is empty, print "No samples collected!" and return
`None` — appending nothing to either CSV; otherwise append one row of
median values to the plant-data CSV and one to the system-data CSV.
The result is `none` when no rows are written, `some (plantRow, systemRow)`
for the written rows (timestamps omitted; `none` inside a row is NaN). -/
def makedata (ticks : List Tick) : Option (List (Option ℚ) × List (Option ℚ)) :=
  if (soilColumn ticks 0).isEmpty then none
  else
    some
      ([median (soilColumn ticks 0), median (soilColumn ticks 1),
        median (soilColumn ticks 2), median (soilColumn ticks 3),
        median (envColumn ticks EnvSample.temperature),
        median (envColumn ticks EnvSample.humidity),
        median (envColumn ticks EnvSample.pressure)],
       [median (envColumn ticks EnvSample.cpuTemp),
        median (envColumn ticks EnvSample.cpuUsage),
        median (envColumn ticks EnvSample.memUsage)])

/-! ### plant_monitor.py — send_data -/

/-- Outcome of one `subprocess.run(["scp", ...], check=True, timeout=60)`
call: success, a non-zero exit (`subprocess.CalledProcessError` — the only
exception the per-attempt `except` clause catches), or a hang past the
60 s timeout (`subprocess.TimeoutExpired` — not caught by the per-attempt
handler). -/
inductive Outcome where
  | success
  | exitError
  | timeout
  deriving DecidableEq, Repr

/-- Externally visible actions of `send_data`. -/
inductive XferEvent where
  /-- scp attempt number `n` (1-based) for artifact `a`
  (0 = image, 1 = plant-data CSV, 2 = system-data CSV) -/
  | attempt (a n : Nat)
  /-- `time.sleep(2)` between retries of artifact `a` -/
  | backoff (a : Nat)
  /-- the outer `except Exception` of `send_data` catching a propagated
  exception (line 265) -/
  | abortBatch
  deriving DecidableEq, Repr

/-- `max_retries = 3` (line 187) -/
def max_retries : Nat := 3

/-- The `for attempt in range(1, max_retries + 1)` retry loop run for one
artifact of `send_data` (`plant_monitor.py` lines 193–214, repeated at
219–239 and 242–262): on success, `break`; on `CalledProcessError`, sleep
the 2 s backoff and retry if attempts remain, otherwise log and fall out
of the loop normally; on `TimeoutExpired`, the exception escapes the loop
(`Except.error`).  `outcome n` is what attempt `n` does. -/
def transferLoop (a : Nat) (outcome : Nat → Outcome) :
    Nat → Nat → List XferEvent × Except Unit Unit
  | _, 0 => ([], Except.ok ())
  | attempt, fuel + 1 =>
    if attempt > max_retries then ([], Except.ok ())
    else
      match outcome attempt with
      | Outcome.success => ([XferEvent.attempt a attempt], Except.ok ())
      | Outcome.timeout => ([XferEvent.attempt a attempt], Except.error ())
      | Outcome.exitError =>
        if attempt < max_retries then
          let r := transferLoop a outcome (attempt + 1) fuel
          ([XferEvent.attempt a attempt, XferEvent.backoff a] ++ r.1, r.2)
        else ([XferEvent.attempt a attempt], Except.ok ())

/-- One artifact's whole retry job, started at attempt 1. -/
def transferJob (a : Nat) (outcome : Nat → Outcome) : List XferEvent × Except Unit Unit :=
  transferLoop a outcome 1 max_retries

/-- `send_data` (`plant_monitor.py` lines 177–266): transfer the image
(when one is available on disk — otherwise that transfer is skipped), then
the plant-data CSV, then the system-data CSV, each through its own
3-attempt retry loop.  An exception escaping a retry loop (a timeout) is
caught by the function's outer `except Exception` handler, which ends the
whole batch. -/
def send_data (imageAvailable : Bool) (outImg outPlant outSys : Nat → Outcome) :
    List XferEvent :=
  let r1 := if imageAvailable then transferJob 0 outImg else ([], Except.ok ())
  match r1.2 with
  | Except.error _ => r1.1 ++ [XferEvent.abortBatch]
  | Except.ok _ =>
    let r2 := transferJob 1 outPlant
    match r2.2 with
    | Except.error _ => r1.1 ++ r2.1 ++ [XferEvent.abortBatch]
    | Except.ok _ =>
      let r3 := transferJob 2 outSys
      match r3.2 with
      | Except.error _ => r1.1 ++ r2.1 ++ r3.1 ++ [XferEvent.abortBatch]
      | Except.ok _ => r1.1 ++ r2.1 ++ r3.1

/-- The claim's per-key condition: every value of the key present in both
dicts with nonzero previous value has relative change
`|curr − prev| / prev` at most the threshold. -/
def relWithin (p c : Option ℚ) (thr : ℚ) : Prop :=
  ∀ pv cv, p = some pv → c = some cv → pv ≠ 0 → |cv - pv| / pv ≤ thr

/-- Does this event record an scp attempt for artifact `a`? -/
def isAttempt (a : Nat) : XferEvent → Bool
  | XferEvent.attempt b _ => b == a
  | _ => false

/-- An scp that fails with a non-zero exit on every attempt. -/
def allExitError : Nat → Outcome := fun _ => Outcome.exitError

/-- An scp that succeeds on every attempt. -/
def allSuccess : Nat → Outcome := fun _ => Outcome.success

/-- An scp that hangs past its timeout on every attempt. -/
def allTimeout : Nat → Outcome := fun _ => Outcome.timeout

/-! ## Theorems -/

theorem checkKey_eq_true_iff (p c : Option ℚ) (thr : ℚ) :
    checkKey p c thr = true ↔ relWithin p c thr := by
  cases p with
  | none => simp [checkKey, relWithin]
  | some pv =>
    cases c with
    | none => simp [checkKey, relWithin]
    | some cv =>
      by_cases h0 : pv = 0
      · simp [checkKey, relWithin, h0]
      · by_cases hgt : |cv - pv| / pv > thr
        · simp [checkKey, relWithin, h0, hgt, not_le.mpr hgt]
        · simp [checkKey, relWithin, h0, hgt, not_lt.mp hgt]

/-- C3: `is_stable` returns true exactly when, for each tracked key
(`ExposureTime`, `AnalogGain`) present in both metadata dicts with nonzero
previous value, the relative change `|curr − prev| / prev` is at most the
threshold; any such key changing by more than the threshold makes it
return false, and keys with zero previous value are skipped. -/
theorem is_stable_iff_relWithin (prev curr : Metadata) (thr : ℚ) :
    is_stable prev curr thr = true ↔
      relWithin prev.exposureTime curr.exposureTime thr ∧
      relWithin prev.analogGain curr.analogGain thr := by
  rw [is_stable, Bool.and_eq_true, checkKey_eq_true_iff, checkKey_eq_true_iff]

/-- C1 counterexample: at `prev.ExposureTime = 1000000 µs`,
`curr.ExposureTime = 1006000 µs` the absolute delta is 6000 > 5000 yet
`is_stable` holds (relative change 0.6% ≤ 2%), and the tick *increments*
the stable counter (0 → 1) instead of resetting it to 0 as the claim
demands. -/
theorem stabTick_no_reset_on_stable_tick :
    is_stable { exposureTime := some 1000000, analogGain := some 2, lux := none }
      { exposureTime := some 1006000, analogGain := some 2, lux := none }
      STAB_THRESHOLD = true
    ∧ |(1000000 : ℚ) - 1006000| > 5000
    ∧ (stabTick
        { prevMetadata := some { exposureTime := some 1000000, analogGain := some 2, lux := none },
          stableCount := 0, iteration := 5 }
        { exposureTime := some 1006000, analogGain := some 2, lux := none }).stableCount = 1 := by
  refine ⟨?_, by norm_num, ?_⟩
  · norm_num [is_stable, checkKey, STAB_THRESHOLD]
  · norm_num [stabTick, is_stable, checkKey, STAB_THRESHOLD]

/-- C1 (amended): on a tick whose two metadata dicts both carry
`ExposureTime`, the counter is reset to 0 by an absolute exposure-time
delta > 5000 only when `is_stable` is false for the pair; when `is_stable`
is true the counter increments regardless of the delta; and a tick where
`is_stable` is false with delta ≤ 5000 leaves the counter unchanged. -/
theorem stabTick_reset_characterization (prev curr : Metadata) (sc it : Nat) (pe ce : ℚ)
    (hpe : prev.exposureTime = some pe) (hce : curr.exposureTime = some ce) :
    (is_stable prev curr STAB_THRESHOLD = false → |pe - ce| > 5000 →
      (stabTick { prevMetadata := some prev, stableCount := sc, iteration := it }
        curr).stableCount = 0)
    ∧ (is_stable prev curr STAB_THRESHOLD = true →
      (stabTick { prevMetadata := some prev, stableCount := sc, iteration := it }
        curr).stableCount = sc + 1)
    ∧ (is_stable prev curr STAB_THRESHOLD = false → |pe - ce| ≤ 5000 →
      (stabTick { prevMetadata := some prev, stableCount := sc, iteration := it }
        curr).stableCount = sc) := by
  refine ⟨fun hs hd => ?_, fun hs => ?_, fun hs hd => ?_⟩
  · simp [stabTick, hs, hpe, hce, hd]
  · simp [stabTick, hs]
  · simp [stabTick, hs, hpe, hce, not_lt.mpr hd]

/-- Witness for the amended C1 at a concrete unstable tick with a major
delta (100 → 10000 µs): the counter (here 7) is reset to 0. -/
theorem stabTick_reset_characterization_witness :
    (stabTick
      { prevMetadata := some { exposureTime := some 100, analogGain := some 2, lux := none },
        stableCount := 7, iteration := 0 }
      { exposureTime := some 10000, analogGain := some 2, lux := none }).stableCount = 0 :=
  (stabTick_reset_characterization
    { exposureTime := some 100, analogGain := some 2, lux := none }
    { exposureTime := some 10000, analogGain := some 2, lux := none }
    7 0 100 10000 rfl rfl).1 (by norm_num [is_stable, checkKey, STAB_THRESHOLD]) (by norm_num)

theorem stabTick_iteration (s : StabState) (m : Metadata) :
    (stabTick s m).iteration = s.iteration + 1 := rfl

theorem stabRun_iteration_le (metas : Nat → Metadata) :
    ∀ (fuel : Nat) (s : StabState), s.iteration ≤ max_iterations →
      (stabRun metas fuel s).iteration ≤ max_iterations := by
  intro fuel
  induction fuel with
  | zero => intro s h; exact h
  | succ n ih =>
    intro s h
    rw [stabRun]
    by_cases hlt : s.iteration < max_iterations
    · rw [if_pos hlt]
      have htick := stabTick_iteration s (metas s.iteration)
      by_cases hsc :
          required_stable_iterations ≤ (stabTick s (metas s.iteration)).stableCount
      · rw [if_pos hsc]; omega
      · rw [if_neg hsc]; exact ih _ (by omega)
    · rw [if_neg hlt]; exact h

/-- C9: for every metadata sequence, the stabilization loop of
`take_picture` executes at most `max_iterations` (10) ticks, and after
leaving the loop — converged or exhausted — the final image capture is
performed. -/
theorem take_picture_bounded_then_captures (initMeta : Metadata) (metas : Nat → Metadata) :
    (stabilize metas).iteration ≤ max_iterations ∧
    CamEvent.captureFile ∈ take_picture_events initMeta metas := by
  constructor
  · exact stabRun_iteration_le metas max_iterations _ (by simp)
  · simp [take_picture_events]

/-- C10: when the initial capture metadata has no `Lux` key, the light
level is read as the default 200 and the low-light `set_controls` override
is not applied; in general the override is applied exactly when the
reported `Lux` value is below 100. -/
theorem low_light_override_iff :
    (∀ (e g : Option ℚ) (metas : Nat → Metadata),
      light_level { exposureTime := e, analogGain := g, lux := none } = 200 ∧
      CamEvent.setControlsLowLight ∉
        take_picture_events { exposureTime := e, analogGain := g, lux := none } metas)
    ∧ (∀ (m : Metadata) (metas : Nat → Metadata),
      CamEvent.setControlsLowLight ∈ take_picture_events m metas ↔
        ∃ q, m.lux = some q ∧ q < 100) := by
  constructor
  · intro e g metas
    refine ⟨rfl, ?_⟩
    have h200 : ¬ ((200 : ℚ) < 100) := by norm_num
    simp +decide [take_picture_events, lowLight, light_level, h200, List.mem_replicate]
  · intro m metas
    rcases hm : m.lux with _ | q
    · have h200 : ¬ ((200 : ℚ) < 100) := by norm_num
      simp +decide [take_picture_events, lowLight, light_level, hm, h200, List.mem_replicate]
    · by_cases hq : q < 100
      · simp +decide [take_picture_events, lowLight, light_level, hm, hq, List.mem_replicate]
      · simp +decide [take_picture_events, lowLight, light_level, hm, hq, List.mem_replicate]

theorem control_heater_false_no_cmdOn (p : Bool) :
    HeaterEvent.cmdOn ∉ (control_heater false p).2 := by
  cases p <;> simp +decide [control_heater]

theorem heaterIter_cmdOn_below_threshold (temps : Nat → Option ℚ) (s : HeaterState)
    (h : HeaterEvent.cmdOn ∈ (heaterIter temps s).2) :
    ∃ t, temps s.checkIdx = some t ∧ t < TEMP_THRESHOLD := by
  rcases hc : temps s.checkIdx with _ | t
  · simp only [heaterIter, hc] at h
    simp +decide at h
  · by_cases ht : t < TEMP_THRESHOLD
    · exact ⟨t, rfl, ht⟩
    · simp only [heaterIter, hc, if_neg ht] at h
      rcases List.mem_append.mp h with h1 | h1
      · exact absurd h1 (control_heater_false_no_cmdOn s.plugOn)
      · simp +decide at h1

theorem temps940_of_ge_two (i : Nat) (h : 2 ≤ i) : temps940 i = some 11 := by
  simp [temps940, Nat.not_lt.mpr h]

theorem heaterRun_temps940_no_cmdOn :
    ∀ (n : Nat) (s : HeaterState), 2 ≤ s.checkIdx →
      HeaterEvent.cmdOn ∉ (heaterRun temps940 n s).2 := by
  intro n
  induction n with
  | zero => intro s _; simp [heaterRun]
  | succ k ih =>
    intro s hs
    have h11 : ¬ ((11 : ℚ) < TEMP_THRESHOLD) := by norm_num [TEMP_THRESHOLD]
    have hiter : heaterIter temps940 s =
        (some { plugOn := (control_heater false s.plugOn).1, checkIdx := s.checkIdx + 1 },
          (control_heater false s.plugOn).2 ++ [HeaterEvent.sleepIdle]) := by
      simp [heaterIter, temps940_of_ge_two s.checkIdx hs, h11]
    intro hmem
    simp only [heaterRun, hiter] at hmem
    rcases List.mem_append.mp hmem with h1 | h1
    · rcases List.mem_append.mp h1 with h2 | h2
      · exact control_heater_false_no_cmdOn s.plugOn h2
      · simp +decide at h2
    · exact ih { plugOn := (control_heater false s.plugOn).1, checkIdx := s.checkIdx + 1 }
        (by show 2 ≤ s.checkIdx + 1; omega) h1

/-- C4: under the temperature check-point readings 9.0, 9.0, 11.0 the
heater loop commands the actuator ON, holds it for the on-duration,
commands it OFF, and over any further iterations (all readings ≥ 10.0)
never commands ON again; and in general a `plug.turn_on()` command can
only be issued on an iteration whose latest reading is strictly below the
10.0 °C threshold. -/
theorem thermostat_scenario_and_on_guard :
    (heaterRun temps940 2 { plugOn := false, checkIdx := 0 }).2 =
      [HeaterEvent.cmdOn, HeaterEvent.sleepOn, HeaterEvent.cmdOff,
       HeaterEvent.sleepOff, HeaterEvent.sleepIdle]
    ∧ (∀ n : Nat,
        HeaterEvent.cmdOn ∉ (heaterRun temps940 n { plugOn := false, checkIdx := 2 }).2)
    ∧ (∀ (temps : Nat → Option ℚ) (s : HeaterState),
        HeaterEvent.cmdOn ∈ (heaterIter temps s).2 →
        ∃ t, temps s.checkIdx = some t ∧ t < TEMP_THRESHOLD) :=
  ⟨by decide,
   fun n => heaterRun_temps940_no_cmdOn n { plugOn := false, checkIdx := 2 } (by norm_num),
   heaterIter_cmdOn_below_threshold⟩

/-- Witness for C4's guard at a concrete iteration: the first iteration of
the scenario issues `cmdOn`, so its reading (9.0) is below threshold. -/
theorem thermostat_on_guard_witness :
    ∃ t, temps940 (HeaterState.mk false 0).checkIdx = some t ∧ t < TEMP_THRESHOLD :=
  thermostat_scenario_and_on_guard.2.2 temps940 { plugOn := false, checkIdx := 0 } (by decide)

/-- C8: `control_heater` reads the actuator state and writes only on a
difference, so two consecutive ensure-OFF calls issue at most one physical
OFF command, and a turn-ON request on an already-on actuator issues no
physical command at all. -/
theorem control_heater_idempotent :
    (∀ p : Bool,
      ((control_heater false p).2 ++
        (control_heater false (control_heater false p).1).2).count HeaterEvent.cmdOff ≤ 1)
    ∧ control_heater true true = (true, []) := by
  constructor
  · intro p; cases p <;> decide
  · decide

/-- C6: a first CPU-temperature measurement above 80 °C suspends the
heater and camera subsystems and waits the 30 s cooldown; if the
re-measurement is still above 80 °C, the watchdog performs the orderly
shutdown (stop subsystems, release GPIO) and re-execs the process, and if
it is not, it resumes both subsystems without restarting.  Instantiated at
[85, 85] the trace reaches the re-exec; at [85, 70] it resumes both. -/
theorem watchdog_cooldown_escalation (c1 c2 : ℚ) (h1 : CPU_TEMP_THRESHOLD < c1) :
    (CPU_TEMP_THRESHOLD < c2 →
      check_system_resources (some c1) (some c2) =
        ([WEvent.stopHeater, WEvent.stopCamera, WEvent.cooldown] ++ shutdown ++ [WEvent.reexec],
          false))
    ∧ (¬ CPU_TEMP_THRESHOLD < c2 →
      check_system_resources (some c1) (some c2) =
        ([WEvent.stopHeater, WEvent.stopCamera, WEvent.cooldown,
          WEvent.startHeater, WEvent.startCamera], false)) := by
  constructor
  · intro h2; simp [check_system_resources, h1, h2]
  · intro h2; simp [check_system_resources, h1, h2]

/-- Witness for C6 at the claim's two measurement sequences [85, 85]
(reaches the re-exec) and [85, 70] (resumes both subsystems). -/
theorem watchdog_cooldown_escalation_witness :
    check_system_resources (some 85) (some 85) =
      ([WEvent.stopHeater, WEvent.stopCamera, WEvent.cooldown] ++ shutdown ++ [WEvent.reexec],
        false)
    ∧ check_system_resources (some 85) (some 70) =
      ([WEvent.stopHeater, WEvent.stopCamera, WEvent.cooldown,
        WEvent.startHeater, WEvent.startCamera], false) :=
  ⟨(watchdog_cooldown_escalation 85 85 (by norm_num [CPU_TEMP_THRESHOLD])).1
      (by norm_num [CPU_TEMP_THRESHOLD]),
   (watchdog_cooldown_escalation 85 70 (by norm_num [CPU_TEMP_THRESHOLD])).2
      (by norm_num [CPU_TEMP_THRESHOLD])⟩

/-- C7: `read_sensor` has no `try/finally`, so a failing `sensor.value`
read returns with the selected rail still HIGH, and the next call drives
its own rail HIGH before the write loop reaches the stale one: after
`read_sensor(2)` raises and `read_sensor(0)` begins, the bus passes
through the state [HIGH, LOW, HIGH, LOW] — two rails HIGH at one instant,
violating the at-most-one-rail invariant the claim states. -/
theorem mux_two_rails_high :
    [true, false, true, false] ∈
      mux_run [false, false, false, false] [(2, false), (0, true)]
    ∧ atMostOneHigh [true, false, true, false] = false := by decide

/-- C5: a sampling window that ends with zero collected samples (every
pass of the loop failed before appending anything) produces no reading —
`makedata` returns `None` without appending a row to the plant-data CSV
or the system-data CSV. -/
theorem makedata_empty_window_no_rows (ticks : List Tick)
    (h : ∀ t ∈ ticks, t.soil = [] ∧ t.env = none) :
    makedata ticks = none := by
  have h0 : soilColumn ticks 0 = [] := by
    rw [soilColumn, List.filterMap_eq_nil_iff]
    intro t ht
    rw [(h t ht).1]
    rfl
  simp [makedata, h0]

/-- Witness for C5: a window of two fully failed passes writes no rows. -/
theorem makedata_empty_window_no_rows_witness :
    makedata [{ soil := [], env := none }, { soil := [], env := none }] = none :=
  makedata_empty_window_no_rows _ (by decide)

theorem transferLoop_countP_le (a b : Nat) (outcome : Nat → Outcome) :
    ∀ (fuel attempt : Nat),
      ((transferLoop b outcome attempt fuel).1.countP (isAttempt a)) ≤ fuel := by
  intro fuel
  induction fuel with
  | zero => intro attempt; simp [transferLoop]
  | succ k ih =>
    intro attempt
    rw [transferLoop]
    by_cases hgt : attempt > max_retries
    · simp [hgt]
    · have hone : List.countP (isAttempt a) [XferEvent.attempt b attempt] ≤ 1 := by
        by_cases h : b = a <;> simp [List.countP_cons, isAttempt, h]
      rcases ho : outcome attempt with _ | _ | _
      · simp only [if_neg hgt, ho]
        omega
      · by_cases hlt : attempt < max_retries
        · have hrec := ih (attempt + 1)
          have hpair : List.countP (isAttempt a)
              [XferEvent.attempt b attempt, XferEvent.backoff b] ≤ 1 := by
            by_cases h : b = a <;> simp [List.countP_cons, isAttempt, h]
          simp only [if_neg hgt, ho, if_pos hlt, List.countP_append]
          omega
        · simp only [if_neg hgt, ho, if_neg hlt]
          omega
      · simp only [if_neg hgt, ho]
        omega

theorem transferLoop_countP_other (a b : Nat) (hne : ¬ b = a) (outcome : Nat → Outcome) :
    ∀ (fuel attempt : Nat),
      ((transferLoop b outcome attempt fuel).1.countP (isAttempt a)) = 0 := by
  intro fuel
  induction fuel with
  | zero => intro attempt; simp [transferLoop]
  | succ k ih =>
    intro attempt
    rw [transferLoop]
    by_cases hgt : attempt > max_retries
    · simp [hgt]
    · rcases ho : outcome attempt with _ | _ | _
      · simp [hgt, ho, List.countP_cons, isAttempt, hne]
      · by_cases hlt : attempt < max_retries
        · simp [hgt, ho, hlt, List.countP_cons, List.countP_append, isAttempt, hne,
            ih (attempt + 1)]
        · simp [hgt, ho, hlt, List.countP_cons, isAttempt, hne]
      · simp [hgt, ho, List.countP_cons, isAttempt, hne]

theorem transferJob_countP_le (a b : Nat) (outcome : Nat → Outcome) :
    ((transferJob b outcome).1.countP (isAttempt a)) ≤ max_retries :=
  transferLoop_countP_le a b outcome max_retries 1

theorem transferJob_countP_other (a b : Nat) (hne : ¬ b = a) (outcome : Nat → Outcome) :
    ((transferJob b outcome).1.countP (isAttempt a)) = 0 :=
  transferLoop_countP_other a b hne outcome max_retries 1

theorem transferLoop_ok_of_no_timeout (a : Nat) (outcome : Nat → Outcome)
    (h : ∀ n, outcome n ≠ Outcome.timeout) :
    ∀ (fuel attempt : Nat), (transferLoop a outcome attempt fuel).2 = Except.ok () := by
  intro fuel
  induction fuel with
  | zero => intro attempt; rfl
  | succ k ih =>
    intro attempt
    rw [transferLoop]
    by_cases hgt : attempt > max_retries
    · simp [hgt]
    · rcases ho : outcome attempt with _ | _ | _
      · simp [hgt, ho]
      · by_cases hlt : attempt < max_retries
        · simp [hgt, ho, hlt, ih (attempt + 1)]
        · simp [hgt, ho, hlt]
      · exact absurd ho (h attempt)

theorem transferJob_attempt_one_mem (a : Nat) (outcome : Nat → Outcome) :
    XferEvent.attempt a 1 ∈ (transferJob a outcome).1 := by
  rcases ho : outcome 1 with _ | _ | _ <;>
    simp [transferJob, transferLoop, max_retries, ho]

theorem send_data_trace_shape (imageAvailable : Bool) (outImg outPlant outSys : Nat → Outcome)
    (hImg : ∀ n, outImg n ≠ Outcome.timeout) (hPlant : ∀ n, outPlant n ≠ Outcome.timeout) :
    ∃ suffix, send_data imageAvailable outImg outPlant outSys =
      (if imageAvailable then transferJob 0 outImg else ([], Except.ok ())).1 ++
        (transferJob 1 outPlant).1 ++ (transferJob 2 outSys).1 ++ suffix := by
  have h1ok : (if imageAvailable then transferJob 0 outImg else ([], Except.ok ())).2 =
      Except.ok () := by
    cases imageAvailable
    · rfl
    · exact transferLoop_ok_of_no_timeout 0 outImg hImg max_retries 1
  have h2ok : (transferJob 1 outPlant).2 = Except.ok () :=
    transferLoop_ok_of_no_timeout 1 outPlant hPlant max_retries 1
  rcases h3 : (transferJob 2 outSys).2 with e | v
  · exact ⟨[XferEvent.abortBatch], by simp [send_data, h1ok, h2ok, h3]⟩
  · exact ⟨[], by simp [send_data, h1ok, h2ok, h3]⟩

/-- C2 (amended): each artifact is attempted at most `max_retries` (3)
times during a `send_data` batch; a job all of whose attempts fail with a
non-zero scp exit (`CalledProcessError`) runs exactly 3 attempts with the
fixed 2 s backoff between consecutive failed attempts and then lets the
batch continue; and as long as failures are `CalledProcessError`s, the
plant-data and system-data transfers still run after earlier artifacts
exhaust their attempts.  (A `TimeoutExpired`, by contrast, escapes the
per-attempt handler and ends the batch — see the counterexample.) -/
theorem send_data_retry_policy :
    (∀ a : Nat, transferJob a allExitError =
      ([XferEvent.attempt a 1, XferEvent.backoff a, XferEvent.attempt a 2,
        XferEvent.backoff a, XferEvent.attempt a 3], Except.ok ()))
    ∧ (∀ (a : Nat) (imageAvailable : Bool) (outImg outPlant outSys : Nat → Outcome),
        (send_data imageAvailable outImg outPlant outSys).countP (isAttempt a) ≤ max_retries)
    ∧ (∀ (imageAvailable : Bool) (outImg outPlant outSys : Nat → Outcome),
        (∀ n, outImg n ≠ Outcome.timeout) → (∀ n, outPlant n ≠ Outcome.timeout) →
        XferEvent.attempt 1 1 ∈ send_data imageAvailable outImg outPlant outSys ∧
        XferEvent.attempt 2 1 ∈ send_data imageAvailable outImg outPlant outSys) := by
  refine ⟨fun a => rfl, ?_, ?_⟩
  · intro a imageAvailable outImg outPlant outSys
    have hj0 : (List.countP (isAttempt a)
        (if imageAvailable then transferJob 0 outImg else ([], Except.ok ())).1) ≤
        List.countP (isAttempt a) (transferJob 0 outImg).1 := by
      cases imageAvailable <;> simp
    have hsum : (List.countP (isAttempt a)
        (if imageAvailable then transferJob 0 outImg else ([], Except.ok ())).1) +
        List.countP (isAttempt a) (transferJob 1 outPlant).1 +
        List.countP (isAttempt a) (transferJob 2 outSys).1 ≤ max_retries := by
      by_cases e0 : (0 : Nat) = a
      · have z1 := transferJob_countP_other a 1 (by omega) outPlant
        have z2 := transferJob_countP_other a 2 (by omega) outSys
        have b0 := transferJob_countP_le a 0 outImg
        omega
      · by_cases e1 : (1 : Nat) = a
        · have z0 := transferJob_countP_other a 0 (by omega) outImg
          have z2 := transferJob_countP_other a 2 (by omega) outSys
          have b1 := transferJob_countP_le a 1 outPlant
          omega
        · by_cases e2 : (2 : Nat) = a
          · have z0 := transferJob_countP_other a 0 (by omega) outImg
            have z1 := transferJob_countP_other a 1 (by omega) outPlant
            have b2 := transferJob_countP_le a 2 outSys
            omega
          · have z0 := transferJob_countP_other a 0 (by omega) outImg
            have z1 := transferJob_countP_other a 1 (by omega) outPlant
            have z2 := transferJob_countP_other a 2 (by omega) outSys
            omega
    have habort : List.countP (isAttempt a) [XferEvent.abortBatch] = 0 := rfl
    rcases hr1 : (if imageAvailable then transferJob 0 outImg else ([], Except.ok ())).2
        with e | v
    · have ht : send_data imageAvailable outImg outPlant outSys =
          (if imageAvailable then transferJob 0 outImg else ([], Except.ok ())).1 ++
            [XferEvent.abortBatch] := by
        simp [send_data, hr1]
      rw [ht, List.countP_append]
      omega
    · rcases hr2 : (transferJob 1 outPlant).2 with e | v
      · have ht : send_data imageAvailable outImg outPlant outSys =
            (if imageAvailable then transferJob 0 outImg else ([], Except.ok ())).1 ++
              (transferJob 1 outPlant).1 ++ [XferEvent.abortBatch] := by
          simp [send_data, hr1, hr2]
        rw [ht, List.countP_append, List.countP_append]
        omega
      · rcases hr3 : (transferJob 2 outSys).2 with e | v
        · have ht : send_data imageAvailable outImg outPlant outSys =
              (if imageAvailable then transferJob 0 outImg else ([], Except.ok ())).1 ++
                (transferJob 1 outPlant).1 ++ (transferJob 2 outSys).1 ++
                [XferEvent.abortBatch] := by
            simp [send_data, hr1, hr2, hr3]
          rw [ht, List.countP_append, List.countP_append, List.countP_append]
          omega
        · have ht : send_data imageAvailable outImg outPlant outSys =
              (if imageAvailable then transferJob 0 outImg else ([], Except.ok ())).1 ++
                (transferJob 1 outPlant).1 ++ (transferJob 2 outSys).1 := by
            simp [send_data, hr1, hr2, hr3]
          rw [ht, List.countP_append, List.countP_append]
          omega
  · intro imageAvailable outImg outPlant outSys hImg hPlant
    rcases send_data_trace_shape imageAvailable outImg outPlant outSys hImg hPlant with
      ⟨suffix, hshape⟩
    rw [hshape]
    constructor
    · exact List.mem_append.mpr (Or.inl (List.mem_append.mpr (Or.inl
        (List.mem_append.mpr (Or.inr (transferJob_attempt_one_mem 1 outPlant))))))
    · exact List.mem_append.mpr (Or.inl (List.mem_append.mpr (Or.inr
        (transferJob_attempt_one_mem 2 outSys))))

/-- Witness for the amended C2: with the image and plant-data transfers
failing on every attempt with a non-zero exit, the plant-data and
system-data jobs still run (their first attempts appear in the batch
trace). -/
theorem send_data_retry_policy_witness :
    XferEvent.attempt 1 1 ∈ send_data true allExitError allExitError allSuccess
    ∧ XferEvent.attempt 2 1 ∈ send_data true allExitError allExitError allSuccess := by
  have h1 : ∀ n, allExitError n ≠ Outcome.timeout := fun _ h => Outcome.noConfusion h
  exact send_data_retry_policy.2.2 true allExitError allExitError allSuccess h1 h1

/-- C2 counterexample: an image transfer that times out on its first
attempt (a `subprocess.TimeoutExpired`, which the per-attempt `except
subprocess.CalledProcessError` clause does not catch) propagates to the
outer handler and ends the batch: the plant-data and system-data CSVs get
no transfer attempt at all, refuting "a transfer failure on one artifact
never aborts the whole batch". -/
theorem send_data_timeout_aborts_batch :
    send_data true allTimeout allSuccess allSuccess =
      [XferEvent.attempt 0 1, XferEvent.abortBatch]
    ∧ XferEvent.attempt 1 1 ∉ send_data true allTimeout allSuccess allSuccess
    ∧ XferEvent.attempt 2 1 ∉ send_data true allTimeout allSuccess allSuccess := by
  decide

end Hortus
